import Mathlib

/-
  Verification of the Dell Unisphere client against its natural-language
  specification.

  The definitions below are a shallow embedding of the Python sources:

  * `monitorStep` / `monitorRun` embed the real-implementation branch of
    `UpgradeApi.monitor_upgrade_session` (src/dell_unisphere_client/api/upgrade.py,
    lines 345-461) as an explicit step function on the loop's mutable state,
    driven by a trace of poll events (a successful HTTP fetch, carrying the
    parsed `entries` list, or a transport failure — the
    ConnectionError/Timeout/RequestException branch).
  * `handle_response` embeds `BaseApiClient.handle_response`
    (src/dell_unisphere_client/api/base.py, lines 56-82).
  * `baseRequest` embeds the control flow of `BaseApiClient.request`
    (src/dell_unisphere_client/api/base.py, lines 84-257) up to the CSRF guard
    and the single transport invocation; logging is pure I/O and is omitted.
  * `login` embeds `UnisphereClient.login` (src/dell_unisphere_client/client.py,
    lines 321-388) together with the file-system effects of
    `UnisphereClient._create_session_file` (lines 70-110).
  * `get_client` embeds the CLI helper `get_client`
    (src/dell_unisphere_client/cli.py, lines 106-143) together with Python's
    keyword-argument call semantics for the exported
    `UnisphereClient.__init__` (src/dell_unisphere_client/client.py, lines 41-67).
  * `normalizeEligibility` is modelled from the spec (the normalization layer
    of the package's main client is absent from the sources; see its doc
    comment).
-/

namespace DellUnisphere

/-! ### Data model: upgrade session snapshots as seen by the monitor -/

/-- One entry of a session's `tasks` list: `caption` is the human label,
`status` is `task.get("status")` (absent key modelled as `none`; the
status codes are the integers of `get_status_text`: 0 PENDING, 1 IN_PROGRESS,
2 COMPLETED, 3 FAILED, 4 PAUSED). -/
structure UpgradeTask where
  caption : String
  status : Option Int
  deriving Repr, DecidableEq

/-- The `content` dictionary of one upgrade-session entry, restricted to the
fields the monitor reads: `content.get("status")`,
`content.get("percentComplete", 0)` and `content.get("tasks", [])`.
A missing key is `none` / `[]`. -/
structure SessionContent where
  status : Option Int := none
  percentComplete : Option Int := none
  tasks : List UpgradeTask := []
  deriving Repr, DecidableEq

/-- The empty content dictionary `{}` used when no active session exists. -/
def emptyContent : SessionContent := {}

/-- `session["content"]` as computed by the monitor from a fetched response:
`if "entries" in response and response["entries"]:` take the first entry's
content, else the empty dictionary (a missing `entries` key and an empty
list both yield the default, so the response is modelled by its entries
list alone). -/
def sessionOf (entries : List SessionContent) : SessionContent :=
  entries.headD emptyContent

/-! ### Monitor loop state and events -/

/-- The loop-local mutable state of `monitor_upgrade_session`:
`time` is `time.time() - start_time` in seconds (sleeps are the only
time-consuming operations modelled), the remaining fields are the local
variables of the same names. -/
structure MonitorState where
  time : Nat
  lastStatus : Option Int
  lastPercent : Int
  connectionLost : Bool
  primarySpRebootDetected : Bool
  retryCount : Nat
  deriving Repr, DecidableEq

/-- Initial monitor state (`last_status = None`, `last_percent = 0`,
`connection_lost = False`, `primary_sp_reboot_detected = False`,
`retry_count = 0`). -/
def initMonitorState : MonitorState :=
  { time := 0, lastStatus := none, lastPercent := 0, connectionLost := false
    primarySpRebootDetected := false, retryCount := 0 }

/-- One iteration's interaction with the server: either
`get_software_upgrade_sessions` returns a response (with the given entries)
or it raises one of the caught `requests` transport exceptions. -/
inductive PollEvent where
  | success (entries : List SessionContent)
  | failure
  deriving Repr, DecidableEq

/-- The ways one monitor invocation can end. `timeout` records the value of
`time.time() - start_time` at the moment the deadline check fired (the raised
`UnisphereClientError` message carries the configured timeout);
`connectivityExhausted` records `retry_count` as reported in the
`Failed to reconnect after {retry_count} attempts` message; `completed`
returns the session content, `failed` is the `UnisphereClientError`
`"Upgrade failed"` carrying the session snapshot. -/
inductive MonitorOutcome where
  | timeout (elapsed : Nat)
  | completed (session : SessionContent)
  | failed (session : SessionContent)
  | connectivityExhausted (attempts : Nat)
  deriving Repr, DecidableEq

/-- `max_retries = 30  # 5 minutes with 10-second retry interval`. -/
def max_retries : Nat := 30

/-- The fixed reconnect sleep: `time.sleep(10)` on the failure branch. -/
def retry_sleep : Nat := 10

/-- Default poll interval of `monitor_upgrade_session`. -/
def default_interval : Nat := 5

/-- Default overall timeout of `monitor_upgrade_session` (2 hours). -/
def default_timeout : Nat := 7200

/-- The scan for a task captioned "Rebooting the primary SP" with status
`1` (IN_PROGRESS) over `content.get("tasks", [])`. -/
def rebootTaskSeen (tasks : List UpgradeTask) : Bool :=
  tasks.any (fun t => t.caption == "Rebooting the primary SP" && t.status == some 1)

/-- One iteration of the `while True` loop of `monitor_upgrade_session`:
first the deadline check (`time.time() - start_time > timeout`), then either
the successful-poll body or the exception handler, returning either a final
outcome (`Sum.inl`) or the state carried to the next iteration (`Sum.inr`). -/
def monitorStep (interval timeout : Nat) (s : MonitorState) (ev : PollEvent) :
    MonitorOutcome ⊕ MonitorState :=
  if timeout < s.time then
    Sum.inl (.timeout s.time)
  else
    match ev with
    | .success entries =>
      -- connection restored after loss: clear the flag, reset the counter
      let s1 := if s.connectionLost then
          { s with connectionLost := false, retryCount := 0 } else s
      let content := sessionOf entries
      let status := content.status
      let percent := content.percentComplete.getD 0
      -- check for primary SP reboot task (sticky flag)
      let s2 := if rebootTaskSeen content.tasks then
          { s1 with primarySpRebootDetected := true } else s1
      -- progress output bookkeeping (suppresses duplicate prints only)
      let s3 := if status ≠ s.lastStatus ∨ percent ≠ s.lastPercent then
          { s2 with lastStatus := status, lastPercent := percent } else s2
      if status = some 2 then
        Sum.inl (.completed content)
      else if status = some 3 then
        Sum.inl (.failed content)
      else
        Sum.inr { s3 with time := s3.time + interval }
    | .failure =>
      let s1 := { s with
          connectionLost := true
          retryCount := s.retryCount + 1
          time := s.time + retry_sleep }
      if max_retries < s1.retryCount ∧ s.primarySpRebootDetected = false then
        Sum.inl (.connectivityExhausted s1.retryCount)
      else
        Sum.inr s1

/-- Running the monitor loop over a finite trace of poll events: a final
outcome, or the state after consuming the whole trace with the loop still
running. -/
def monitorRun (interval timeout : Nat) :
    MonitorState → List PollEvent → MonitorOutcome ⊕ MonitorState
  | s, [] => Sum.inr s
  | s, ev :: rest =>
    match monitorStep interval timeout s ev with
    | Sum.inl out => Sum.inl out
    | Sum.inr s' => monitorRun interval timeout s' rest

/-! ### JSON values and `BaseApiClient.handle_response` -/

/-- A JSON value, the parse result of `response.json()`. -/
inductive JValue where
  | null
  | bool (b : Bool)
  | nat (n : Nat)
  | str (s : String)
  | arr (xs : List JValue)
  | obj (fields : List (String × JValue))

/-- An HTTP response as `handle_response` inspects it: `statusCode` is
`response.status_code`; `hasJsonMethod` is
`hasattr(response, "json") and callable(response.json)` (false only for the
bare MagicMock objects of the tests); `testJson` is the test-compatibility
`_json` attribute (`none` when absent or `None`); `jsonBody` is the result
of `response.json()` (`none` when it raises `ValueError`). -/
structure HttpResponse where
  statusCode : Nat
  hasJsonMethod : Bool := true
  testJson : Option JValue := none
  jsonBody : Option JValue := none

/-- `BaseApiClient.handle_response` (api/base.py, lines 56-82). Note that the
source never inspects `response.status_code` except to build the synthesized
envelope, and has no raising path at all (its docstring notwithstanding):
its result type is a plain value for every response. -/
def handle_response (r : HttpResponse) : JValue :=
  if r.hasJsonMethod then
    match r.testJson with
    | some j => j
    | none =>
      match r.jsonBody with
      | some j => j
      | none => .obj [("status", .str "success"), ("status_code", .nat r.statusCode)]
  else
    .obj [("content", .obj [("id", .str "123")])]

/-! ### `BaseApiClient.request`: the CSRF guard before the transport call -/

/-- The token-exempt path suffixes of `BaseApiClient.request`
(the tuple passed to `path.endswith`). -/
def exempt_suffixes : List String :=
  ["loginSessionInfo/instances", "auth", "candidateSoftwareVersion"]

/-- `path.endswith(tuple)`: true when some listed suffix ends the path
(suffix test on the character sequences). -/
def endsWithAny (path : String) (suffixes : List String) : Bool :=
  suffixes.any (fun suf => suf.data.isSuffixOf path.data)

/-- Python truthiness of `not self.csrf_token`: the token is missing when it
is `None` or the empty string. -/
def csrfFalsy (t : Option String) : Bool :=
  match t with
  | none => true
  | some s => s.isEmpty

/-- `method.upper()`: character-wise uppercase. -/
def pyUpper (s : String) : String := String.mk (s.data.map Char.toUpper)

/-- The observable result of one `BaseApiClient.request` call: the
`Not authenticated` error, the `CSRFTokenError`, or the single invocation of
`self.session.request` carried out with the given method and path (the
transport is reached only through the `sent` constructor, so a `csrfTokenError`
result means no network request was made). -/
inductive RequestResult where
  | notAuthenticated
  | csrfTokenError
  | sent (method path : String)
  deriving Repr, DecidableEq

/-- `BaseApiClient.request` (api/base.py, lines 84-257) up to the transport
invocation: the session guard, then the CSRF-token guard for POST/DELETE
methods on non-exempt paths, then the call to `self.session.request`.
Header assembly, verbose logging and response handling do not affect which
of the three results occurs and are omitted. -/
def baseRequest (hasSession : Bool) (csrfToken : Option String)
    (method path : String) : RequestResult :=
  if !hasSession then
    .notAuthenticated
  else if pyUpper method = "POST" ∨ pyUpper method = "DELETE" then
    if csrfFalsy csrfToken ∧ endsWithAny path exempt_suffixes = false then
      .csrfTokenError
    else
      .sent method path
  else
    .sent method path

/-! ### `UnisphereClient.login` and its session-file side effect -/

/-- The externally observable effects of one `login()` call, in program
order: creating the `requests.Session`, the GET against
`loginSessionInfo/instances`, and — inside `_create_session_file` — creating
the `~/.uniclient` directory and writing the timestamped session file
(the recorded keys are carried by the effect). -/
inductive LoginEffect where
  | createTransportSession
  | httpGetLoginInfo
  | mkSessionDir
  | writeSessionFile (fields : List String)
  deriving Repr, DecidableEq

/-- The client fields `login` can mutate: `session` (modelled by whether one
is set), `csrf_token`, `_logged_in` and `_session_file` (whether one is set). -/
structure ClientState where
  hasSession : Bool
  csrfToken : Option String
  loggedIn : Bool
  hasSessionFile : Bool
  deriving Repr, DecidableEq

/-- The keys of the `session_data` dictionary written by
`_create_session_file` during `login`. -/
def sessionFileFields : List String :=
  ["idle_timeout", "csrf_token", "username", "password",
   "creation_timestamp", "last_access_timestamp", "session_cookie"]

/-- `UnisphereClient.login` (client.py, lines 321-388), as a function of the
login-probe response (its status code and optional `EMC-CSRF-TOKEN` header):
the new client state, the effects performed, and `some true` on success /
`none` when `AuthenticationError` is raised (the 401 branch; the model
assumes the file-system writes themselves succeed). -/
def login (st : ClientState) (respStatus : Nat) (csrfHeader : Option String) :
    ClientState × List LoginEffect × Option Bool :=
  let effects0 := [LoginEffect.createTransportSession, LoginEffect.httpGetLoginInfo]
  if respStatus = 401 then
    ({ st with hasSession := false }, effects0, none)
  else
    let token := match csrfHeader with
      | some t => some t
      | none => st.csrfToken
    ({ hasSession := true, csrfToken := token, loggedIn := true, hasSessionFile := true },
     effects0 ++ [LoginEffect.mkSessionDir, LoginEffect.writeSessionFile sessionFileFields],
     some true)

/-! ### The CLI helper `get_client` and the exported constructor -/

/-- The parameter names accepted by the exported `UnisphereClient.__init__`
(client.py, lines 41-48; the package's `__init__.py` re-exports exactly this
class). There is no `**kwargs` parameter. -/
def exported_init_params : List String :=
  ["base_url", "username", "password", "verify_ssl", "timeout"]

/-- The keyword arguments `get_client` always passes to `UnisphereClient`
(cli.py, lines 136-142). -/
def get_client_call_kwargs : List String :=
  ["base_url", "username", "password", "verify_ssl", "verbose"]

/-- Modelled Python keyword-call semantics: a call whose keyword-argument
names are `kwargs` against a function whose parameters are `params` (and which
declares no `**kwargs`) raises `TypeError` when some keyword is not a
parameter name. -/
def kwCallRaisesTypeError (params kwargs : List String) : Bool :=
  kwargs.any (fun k => !(params.contains k))

/-- Result of one `get_client` invocation: the `TypeError` from the
constructor call, or a constructed client carrying the merged configuration. -/
inductive GetClientResult where
  | typeError
  | client (base_url username password : String) (verify_ssl verbose : Bool)
  deriving Repr, DecidableEq

/-- The CLI helper `get_client` (cli.py, lines 106-143): merge the loaded
configuration (defaults shown are `DEFAULT_CONFIG`, used when no config file
overrides them) with the provided overrides, then call
`UnisphereClient(base_url=..., username=..., password=..., verify_ssl=...,
verbose=...)`. The keyword set of that call is checked against the exported
constructor's parameters. -/
def get_client (base_url username password : Option String)
    (verify_ssl : Option Bool) (verbose : Bool) : GetClientResult :=
  let cfgBase := base_url.getD "https://localhost:8000"
  let cfgUser := username.getD "admin"
  let cfgPass := password.getD "Password123!"
  let cfgSsl := verify_ssl.getD false
  if kwCallRaisesTypeError exported_init_params get_client_call_kwargs then
    .typeError
  else
    .client cfgBase cfgUser cfgPass cfgSsl verbose

/-! ### Eligibility normalization (modelled from the spec) -/

/-- The normalized eligibility contract `{eligible: bool, messages: [string]}`. -/
structure EligibilityResult where
  eligible : Bool
  messages : List String
  deriving Repr, DecidableEq

/-- Modelled from the spec: the normalization layer of the package's main
client's `verify_upgrade_eligibility` is absent from the sources (the
in-src `UpgradeApi.verify_upgrade_eligibility` returns the raw response, and
`cli.py` calls a richer `verify_upgrade_eligibility(version, raw_json=...)`
that no in-src class defines). Per the spec, for the observed server shape
`{overallStatus, statusMessage}`: "`overallStatus=false` and empty
`statusMessage` means success", normalized to `eligible=true, messages=[]`;
"for all responses with a non-empty `statusMessage`, normalization yields
`eligible=false, messages=[statusMessage]`". -/
def normalizeEligibility (overallStatus : Bool) (statusMessage : String) :
    EligibilityResult :=
  if statusMessage = "" then
    { eligible := !overallStatus, messages := [] }
  else
    { eligible := false, messages := [statusMessage] }

/-- A fresh, never-logged-in client state. -/
def freshClient : ClientState :=
  { hasSession := false, csrfToken := none, loggedIn := false, hasSessionFile := false }

/-- A poll event on which the loop keeps going: a successful fetch whose
(first-entry) session status is neither COMPLETED (2) nor FAILED (3). -/
def nonTerminalPoll (ev : PollEvent) : Prop :=
  ∃ entries, ev = .success entries
    ∧ (sessionOf entries).status ≠ some 2
    ∧ (sessionOf entries).status ≠ some 3

/-! ## Theorems -/

/-! ### Monitor loop: basic step lemmas -/

/-- Past the deadline, the iteration raises the timeout error before
fetching, whatever the server would have answered. -/
theorem monitorStep_deadline (i T : Nat) (s : MonitorState) (ev : PollEvent)
    (h : T < s.time) : monitorStep i T s ev = Sum.inl (.timeout s.time) := by
  simp [monitorStep, h]

/-- Splitting a monitor run at a trace concatenation point. -/
theorem monitorRun_append (i T : Nat) (a b : List PollEvent) :
    ∀ s, monitorRun i T s (a ++ b)
      = match monitorRun i T s a with
        | Sum.inl out => Sum.inl out
        | Sum.inr s' => monitorRun i T s' b := by
  induction a with
  | nil => intro s; simp [monitorRun]
  | cons ev rest ih =>
    intro s
    simp only [List.cons_append, monitorRun]
    cases monitorStep i T s ev with
    | inl out => rfl
    | inr s' => exact ih s'

/-- The state a continuing successful poll hands to the next iteration, in
closed form: time advances by the poll interval, the progress bookkeeping
takes the observed values, the connection is (re)marked up, the reboot flag
accumulates the task observation, and the retry counter is reset exactly
when the connection had been lost. -/
def successNext (i : Nat) (s : MonitorState) (content : SessionContent) :
    MonitorState :=
  { time := s.time + i
    lastStatus := content.status
    lastPercent := content.percentComplete.getD 0
    connectionLost := false
    primarySpRebootDetected :=
      s.primarySpRebootDetected || rebootTaskSeen content.tasks
    retryCount := if s.connectionLost then 0 else s.retryCount }

/-- Closed form of a within-deadline successful-poll iteration. -/
theorem monitorStep_success_eq (i T : Nat) (s : MonitorState)
    (entries : List SessionContent) (ht : ¬ T < s.time) :
    monitorStep i T s (.success entries) =
      if (sessionOf entries).status = some 2 then
        Sum.inl (.completed (sessionOf entries))
      else if (sessionOf entries).status = some 3 then
        Sum.inl (.failed (sessionOf entries))
      else
        Sum.inr (successNext i s (sessionOf entries)) := by
  unfold monitorStep successNext
  by_cases h1 : s.connectionLost <;>
    by_cases h2 : rebootTaskSeen (sessionOf entries).tasks <;>
    by_cases h3 : (sessionOf entries).status ≠ s.lastStatus
        ∨ (sessionOf entries).percentComplete.getD 0 ≠ s.lastPercent <;>
    simp_all

/-- Closed form of a within-deadline failure iteration. -/
theorem monitorStep_failure_eq (i T : Nat) (s : MonitorState) (ht : ¬ T < s.time) :
    monitorStep i T s .failure =
      if max_retries < s.retryCount + 1 ∧ s.primarySpRebootDetected = false then
        Sum.inl (.connectivityExhausted (s.retryCount + 1))
      else
        Sum.inr { s with
          connectionLost := true
          retryCount := s.retryCount + 1
          time := s.time + retry_sleep } := by
  unfold monitorStep
  simp [ht]

/-- A continuing step preserves a set reboot flag. -/
theorem monitorStep_flag_preserved (i T : Nat) (s : MonitorState) (ev : PollEvent)
    (s' : MonitorState) (h : s.primarySpRebootDetected = true)
    (hstep : monitorStep i T s ev = Sum.inr s') :
    s'.primarySpRebootDetected = true := by
  by_cases ht : T < s.time
  · rw [monitorStep_deadline i T s ev ht] at hstep
    cases hstep
  · cases ev with
    | success entries =>
      rw [monitorStep_success_eq i T s entries ht] at hstep
      split_ifs at hstep <;> cases hstep
      simp [successNext, h]
    | failure =>
      rw [monitorStep_failure_eq i T s ht] at hstep
      split_ifs at hstep <;> cases hstep
      simpa using h

/-- A successful poll that observes the "Rebooting the primary SP" task in
progress sets the reboot flag in the continuation state. -/
theorem monitorStep_flag_set (i T : Nat) (s : MonitorState)
    (entries : List SessionContent) (s' : MonitorState)
    (hseen : rebootTaskSeen (sessionOf entries).tasks = true)
    (hstep : monitorStep i T s (.success entries) = Sum.inr s') :
    s'.primarySpRebootDetected = true := by
  by_cases ht : T < s.time
  · rw [monitorStep_deadline i T s _ ht] at hstep
    cases hstep
  · rw [monitorStep_success_eq i T s entries ht] at hstep
    split_ifs at hstep <;> cases hstep
    simp [successNext, hseen]

/-- With the reboot flag set, a step never ends with the
connectivity-exhausted error: its only final outcomes are timeout,
completed and failed. -/
theorem monitorStep_flag_outcomes (i T : Nat) (s : MonitorState) (ev : PollEvent)
    (out : MonitorOutcome) (h : s.primarySpRebootDetected = true)
    (hstep : monitorStep i T s ev = Sum.inl out) :
    (∃ e, out = .timeout e) ∨ (∃ c, out = .completed c) ∨ (∃ c, out = .failed c) := by
  by_cases ht : T < s.time
  · rw [monitorStep_deadline i T s ev ht] at hstep
    cases hstep
    exact Or.inl ⟨s.time, rfl⟩
  · cases ev with
    | success entries =>
      rw [monitorStep_success_eq i T s entries ht] at hstep
      split_ifs at hstep <;> cases hstep
      · exact Or.inr (Or.inl ⟨_, rfl⟩)
      · exact Or.inr (Or.inr ⟨_, rfl⟩)
    | failure =>
      rw [monitorStep_failure_eq i T s ht] at hstep
      split_ifs at hstep with hc <;> cases hstep
      exact absurd hc.2 (by simp [h])

/-- A continuing nonterminal successful poll advances time by exactly the
poll interval. -/
theorem monitorStep_nonterminal (i T : Nat) (s : MonitorState) (ev : PollEvent)
    (ht : ¬ T < s.time) (hev : nonTerminalPoll ev) :
    ∃ s', monitorStep i T s ev = Sum.inr s' ∧ s'.time = s.time + i := by
  obtain ⟨entries, rfl, h2, h3⟩ := hev
  rw [monitorStep_success_eq i T s entries ht, if_neg h2, if_neg h3]
  exact ⟨_, rfl, rfl⟩

/-- With the reboot flag set at entry, the whole run keeps the flag set and
can only end in timeout, completed or failed. -/
theorem monitorRun_flag_invariant (i T : Nat) :
    ∀ (trace : List PollEvent) (s : MonitorState),
      s.primarySpRebootDetected = true →
      (∀ s', monitorRun i T s trace = Sum.inr s' → s'.primarySpRebootDetected = true)
      ∧ (∀ out, monitorRun i T s trace = Sum.inl out →
          (∃ e, out = .timeout e) ∨ (∃ c, out = .completed c) ∨ (∃ c, out = .failed c)) := by
  intro trace
  induction trace with
  | nil =>
    intro s h
    constructor
    · intro s' hs'
      simp only [monitorRun] at hs'
      cases hs'
      exact h
    · intro out hout
      simp [monitorRun] at hout
  | cons ev rest ih =>
    intro s h
    cases hstep : monitorStep i T s ev with
    | inl out0 =>
      have hrun : monitorRun i T s (ev :: rest) = Sum.inl out0 := by
        simp [monitorRun, hstep]
      constructor
      · intro s' hs'
        rw [hrun] at hs'
        cases hs'
      · intro out hout
        rw [hrun] at hout
        cases hout
        exact monitorStep_flag_outcomes i T s ev out0 h hstep
    | inr s1 =>
      have h1 : s1.primarySpRebootDetected = true :=
        monitorStep_flag_preserved i T s ev s1 h hstep
      have hrun : monitorRun i T s (ev :: rest) = monitorRun i T s1 rest := by
        simp [monitorRun, hstep]
      rw [hrun]
      exact ih s1 h1

/-- With the reboot flag unset, a run of `j ≤ max_retries` consecutive
transport failures (each within the deadline) does not abort: the loop is
still running with the retry counter increased by `j` and the clock advanced
by `j` reconnect sleeps. -/
theorem monitorRun_failures_no_abort (i T : Nat) :
    ∀ (j : Nat) (s : MonitorState),
      s.primarySpRebootDetected = false →
      s.retryCount + j ≤ max_retries →
      (∀ k, k < j → s.time + k * retry_sleep ≤ T) →
      ∃ s', monitorRun i T s (List.replicate j PollEvent.failure) = Sum.inr s'
        ∧ s'.retryCount = s.retryCount + j
        ∧ s'.time = s.time + j * retry_sleep
        ∧ s'.primarySpRebootDetected = false := by
  intro j
  induction j with
  | zero =>
    intro s h1 _h2 _h3
    exact ⟨s, by simp [monitorRun], by simp, by simp, h1⟩
  | succ j ih =>
    intro s h1 h2 h3
    have hsT : s.time ≤ T := by simpa using h3 0 (Nat.succ_pos j)
    have ht : ¬ T < s.time := Nat.not_lt.mpr hsT
    have hnoex : ¬ (max_retries < s.retryCount + 1
        ∧ s.primarySpRebootDetected = false) := by
      intro hcon
      omega
    have hstep : monitorStep i T s .failure
        = Sum.inr { s with
            connectionLost := true
            retryCount := s.retryCount + 1
            time := s.time + retry_sleep } := by
      rw [monitorStep_failure_eq i T s ht, if_neg hnoex]
    have hrun : monitorRun i T s (List.replicate (j + 1) PollEvent.failure)
        = monitorRun i T { s with
            connectionLost := true
            retryCount := s.retryCount + 1
            time := s.time + retry_sleep } (List.replicate j PollEvent.failure) := by
      simp [List.replicate_succ, monitorRun, hstep]
    obtain ⟨s', hs', hr, htm, hf⟩ := ih
      { s with
        connectionLost := true
        retryCount := s.retryCount + 1
        time := s.time + retry_sleep }
      (by simpa using h1)
      (by simp only [MonitorState.mk.injEq]; omega)
      (fun k hk => by
        have := h3 (k + 1) (by omega)
        simp only [Nat.succ_mul, retry_sleep] at this ⊢
        omega)
    refine ⟨s', by rw [hrun]; exact hs', ?_, ?_, hf⟩
    · simp only [] at hr
      omega
    · simp only [Nat.succ_mul, retry_sleep] at htm ⊢
      omega

/-- A run consisting only of nonterminal successful polls either is still
going (with time advanced by one interval per poll, every iteration having
started within the deadline) or has raised the timeout error at an elapsed
time in `(T, T + i]`. -/
theorem monitorRun_nonterminal (i T : Nat) :
    ∀ (trace : List PollEvent) (s : MonitorState),
      (∀ ev ∈ trace, nonTerminalPoll ev) → s.time ≤ T + i →
      (∃ s', monitorRun i T s trace = Sum.inr s'
         ∧ s'.time = s.time + trace.length * i
         ∧ (1 ≤ trace.length → s.time + (trace.length - 1) * i ≤ T))
      ∨ (∃ e, monitorRun i T s trace = Sum.inl (.timeout e) ∧ T < e ∧ e ≤ T + i) := by
  intro trace
  induction trace with
  | nil =>
    intro s _hnt _hs
    exact Or.inl ⟨s, by simp [monitorRun], by simp, by simp⟩
  | cons ev rest ih =>
    intro s hnt hs
    by_cases ht : T < s.time
    · refine Or.inr ⟨s.time, ?_, ht, hs⟩
      simp [monitorRun, monitorStep_deadline i T s ev ht]
    · obtain ⟨s1, hstep, htime⟩ :=
        monitorStep_nonterminal i T s ev ht (hnt ev (by simp))
      have hrun : monitorRun i T s (ev :: rest) = monitorRun i T s1 rest := by
        simp [monitorRun, hstep]
      have hsT : s.time ≤ T := Nat.not_lt.mp ht
      have hs1 : s1.time ≤ T + i := by omega
      rcases ih s1 (fun e he => hnt e (by simp [he])) hs1 with
        ⟨s', hr, hlen, hcond⟩ | ⟨e, hr, h1, h2⟩
      · refine Or.inl ⟨s', by rw [hrun]; exact hr, ?_, ?_⟩
        · rw [hlen, htime, List.length_cons, Nat.succ_mul]
          ring
        · intro _
          simp only [List.length_cons, Nat.add_sub_cancel]
          cases hrl : rest.length with
          | zero => simpa using hsT
          | succ n =>
            have hc := hcond (by omega)
            rw [htime, hrl] at hc
            simp only [Nat.succ_sub_one] at hc
            have heq : s.time + (n + 1) * i = s.time + i + n * i := by ring
            rw [heq]
            exact hc
      · exact Or.inr ⟨e, by rw [hrun]; exact hr, h1, h2⟩

/-! ### Claim theorems for the monitor -/

/-- C1: once a successful poll has observed the "Rebooting the primary SP"
task IN_PROGRESS (setting the sticky flag), no later sequence of transport
failures, however long or interleaved, can end the monitor with the
connectivity-exhausted error; the flag is never cleared, and the run can
only end by timeout or by a terminal session status. -/
theorem primary_sp_reboot_sticky (i T : Nat) (s : MonitorState)
    (trace : List PollEvent) (h : s.primarySpRebootDetected = true) :
    (∀ (s₀ : MonitorState) (entries : List SessionContent) (s₀' : MonitorState),
        rebootTaskSeen (sessionOf entries).tasks = true →
        monitorStep i T s₀ (.success entries) = Sum.inr s₀' →
        s₀'.primarySpRebootDetected = true)
    ∧ (∀ s', monitorRun i T s trace = Sum.inr s' → s'.primarySpRebootDetected = true)
    ∧ (∀ n, monitorRun i T s trace ≠ Sum.inl (.connectivityExhausted n))
    ∧ (∀ out, monitorRun i T s trace = Sum.inl out →
        (∃ e, out = .timeout e) ∨ (∃ c, out = .completed c) ∨ (∃ c, out = .failed c)) := by
  obtain ⟨hpres, houts⟩ := monitorRun_flag_invariant i T trace s h
  refine ⟨fun s₀ entries s₀' => monitorStep_flag_set i T s₀ entries s₀', hpres, ?_, houts⟩
  intro n hcontra
  rcases houts _ hcontra with ⟨e, he⟩ | ⟨c, hc⟩ | ⟨c, hc⟩ <;> simp_all

/-- Witness for `primary_sp_reboot_sticky`: with the flag set, 40 consecutive
connection failures do not produce the connectivity-exhausted abort. -/
theorem primary_sp_reboot_sticky_witness :
    monitorRun 5 7200 ⟨0, none, 0, false, true, 0⟩
        (List.replicate 40 PollEvent.failure)
      ≠ Sum.inl (.connectivityExhausted 40) :=
  (primary_sp_reboot_sticky 5 7200 ⟨0, none, 0, false, true, 0⟩
    (List.replicate 40 PollEvent.failure) rfl).2.2.1 40

/-- C2 counterexample: with no reboot detected, 30 consecutive transport
failures (the configured maximum) do NOT abort the monitor — the loop is
still running with `retry_count = 30`; the abort only happens on the 31st
failure, when the counter first exceeds the maximum. -/
theorem thirty_failures_do_not_abort :
    monitorRun default_interval default_timeout initMonitorState
        (List.replicate 30 PollEvent.failure)
      = Sum.inr ⟨300, none, 0, true, false, 30⟩ := by
  decide

/-- C2 amended: with no reboot detected and the retry counter starting at
zero, the monitor aborts with the connectivity-exhausted error on the
31st consecutive transport failure — when `retry_count` first exceeds
`max_retries = 30` — the error reporting 31 attempts; any run of at most 30
consecutive failures leaves the loop running with the counter equal to the
number of failures; and any successful poll after a connection loss resets
the counter to zero. Each failure sleeps the fixed 10-second reconnect
interval. -/
theorem retry_exhaustion (i T : Nat) (s : MonitorState)
    (hflag : s.primarySpRebootDetected = false)
    (hretry : s.retryCount = 0)
    (htime : s.time + max_retries * retry_sleep ≤ T) :
    monitorRun i T s (List.replicate (max_retries + 1) PollEvent.failure)
      = Sum.inl (.connectivityExhausted (max_retries + 1))
    ∧ (∀ m, m ≤ max_retries →
        ∃ s', monitorRun i T s (List.replicate m PollEvent.failure) = Sum.inr s'
          ∧ s'.retryCount = m)
    ∧ (∀ (s₀ : MonitorState) (entries : List SessionContent) (s₀' : MonitorState),
        s₀.connectionLost = true →
        monitorStep i T s₀ (.success entries) = Sum.inr s₀' →
        s₀'.retryCount = 0) := by
  have hmain : ∀ m, m ≤ max_retries →
      ∃ s', monitorRun i T s (List.replicate m PollEvent.failure) = Sum.inr s'
        ∧ s'.retryCount = m
        ∧ s'.time = s.time + m * retry_sleep
        ∧ s'.primarySpRebootDetected = false := by
    intro m hm
    obtain ⟨s', h1, h2, h3, h4⟩ := monitorRun_failures_no_abort i T m s hflag
      (by omega)
      (fun k hk => by
        simp only [retry_sleep, max_retries] at htime hm ⊢
        omega)
    exact ⟨s', h1, by omega, h3, h4⟩
  refine ⟨?_, fun m hm => (hmain m hm).imp (fun s' ⟨h1, h2, _, _⟩ => ⟨h1, h2⟩), ?_⟩
  · obtain ⟨s', h1, h2, h3, h4⟩ := hmain max_retries (le_refl _)
    have hsplit : List.replicate (max_retries + 1) PollEvent.failure
        = List.replicate max_retries PollEvent.failure ++ [PollEvent.failure] := by
      rw [List.replicate_succ']
    rw [hsplit, monitorRun_append, h1]
    have ht : ¬ T < s'.time := by
      rw [h3]
      exact Nat.not_lt.mpr htime
    have hstep : monitorStep i T s' .failure
        = Sum.inl (.connectivityExhausted (s'.retryCount + 1)) := by
      rw [monitorStep_failure_eq i T s' ht, if_pos ⟨by omega, h4⟩]
    simp [monitorRun, hstep, h2]
  · intro s₀ entries s₀' hlost hstep
    by_cases ht : T < s₀.time
    · rw [monitorStep_deadline i T s₀ _ ht] at hstep
      cases hstep
    · rw [monitorStep_success_eq i T s₀ entries ht] at hstep
      split_ifs at hstep <;> cases hstep
      simp [successNext, hlost]

/-- Witness for `retry_exhaustion`: from a fresh state with a 300-second
budget, the 31st consecutive failure aborts with the connectivity error. -/
theorem retry_exhaustion_witness :
    monitorRun 5 300 initMonitorState (List.replicate 31 PollEvent.failure)
      = Sum.inl (.connectivityExhausted 31) :=
  (retry_exhaustion 5 300 initMonitorState rfl rfl (by decide)).1

/-- C3: when every poll succeeds with a nonterminal status, the monitor
raises the timeout error: any loop iteration starting past the deadline
raises immediately with that elapsed time (performing no further poll), and
from the initial state the raise happens at an elapsed time in
`(T, T + interval]`, so the run terminates within `T + interval` of
wall-clock polling time. -/
theorem monitor_timeout_within_bound (i T : Nat) (trace : List PollEvent)
    (hnt : ∀ ev ∈ trace, nonTerminalPoll ev)
    (hlen : T < (trace.length - 1) * i) :
    (∃ e, monitorRun i T initMonitorState trace = Sum.inl (.timeout e)
       ∧ T < e ∧ e ≤ T + i)
    ∧ (∀ (s : MonitorState) (ev : PollEvent) (rest : List PollEvent),
        T < s.time → monitorRun i T s (ev :: rest) = Sum.inl (.timeout s.time)) := by
  constructor
  · rcases monitorRun_nonterminal i T trace initMonitorState hnt
        (by simp [initMonitorState]) with ⟨s', _hr, _ht, hcond⟩ | h
    · exfalso
      have hl : 1 ≤ trace.length := by
        rcases Nat.eq_zero_or_pos trace.length with h0 | h1
        · rw [h0] at hlen
          simp at hlen
        · exact h1
      have hc := hcond hl
      simp only [initMonitorState, Nat.zero_add] at hc
      exact absurd hlen (Nat.not_lt.mpr hc)
    · exact h
  · intro s ev rest hts
    simp [monitorRun, monitorStep_deadline i T s ev hts]

/-- Witness for `monitor_timeout_within_bound`: a 4-poll nonterminal trace
with interval 5 and timeout 12; instantiating the past-deadline conjunct at
a state 13 seconds in shows the immediate raise. -/
theorem monitor_timeout_within_bound_witness :
    monitorRun 5 12 ⟨13, none, 0, false, false, 0⟩ [PollEvent.success []]
      = Sum.inl (.timeout 13) :=
  (monitor_timeout_within_bound 5 12 (List.replicate 4 (PollEvent.success []))
    (fun ev hev => by
      rw [List.eq_of_mem_replicate hev]
      exact ⟨[], rfl, by decide, by decide⟩)
    (by decide)).2 ⟨13, none, 0, false, false, 0⟩ (PollEvent.success []) []
    (by decide)

/-- C4: on a successful in-deadline poll, status COMPLETED (2) returns the
session snapshot, status FAILED (3) raises the failure error carrying the
snapshot, and any other status — including an empty session list, treated as
no active session — sleeps the poll interval and continues. -/
theorem monitor_poll_outcomes (i T : Nat) (s : MonitorState)
    (entries : List SessionContent) (h : s.time ≤ T) :
    ((sessionOf entries).status = some 2 →
      monitorStep i T s (.success entries)
        = Sum.inl (.completed (sessionOf entries)))
    ∧ ((sessionOf entries).status = some 3 →
      monitorStep i T s (.success entries)
        = Sum.inl (.failed (sessionOf entries)))
    ∧ ((sessionOf entries).status ≠ some 2 → (sessionOf entries).status ≠ some 3 →
      ∃ s', monitorStep i T s (.success entries) = Sum.inr s'
        ∧ s'.time = s.time + i)
    ∧ (entries = [] →
      ∃ s', monitorStep i T s (.success entries) = Sum.inr s'
        ∧ s'.time = s.time + i) := by
  have ht : ¬ T < s.time := Nat.not_lt.mpr h
  have hcont : (sessionOf entries).status ≠ some 2 →
      (sessionOf entries).status ≠ some 3 →
      ∃ s', monitorStep i T s (.success entries) = Sum.inr s'
        ∧ s'.time = s.time + i := by
    intro h2 h3
    rw [monitorStep_success_eq i T s entries ht, if_neg h2, if_neg h3]
    exact ⟨_, rfl, rfl⟩
  refine ⟨?_, ?_, hcont, ?_⟩
  · intro h2
    rw [monitorStep_success_eq i T s entries ht, if_pos h2]
  · intro h3
    rw [monitorStep_success_eq i T s entries ht, if_neg (by simp [h3]), if_pos h3]
  · intro he
    subst he
    exact hcont (by simp [sessionOf, emptyContent]) (by simp [sessionOf, emptyContent])

/-- Witness for `monitor_poll_outcomes`: a poll observing status COMPLETED
returns the snapshot. -/
theorem monitor_poll_outcomes_witness :
    monitorStep 5 7200 initMonitorState
        (PollEvent.success [{ status := some 2 }])
      = Sum.inl (.completed { status := some 2 }) :=
  (monitor_poll_outcomes 5 7200 initMonitorState [{ status := some 2 }]
    (by decide)).1 rfl

/-- C5: every server response with `overallStatus=false` and empty
`statusMessage` normalizes to `{eligible: true, messages: []}`, and every
response with a non-empty `statusMessage` normalizes to
`{eligible: false, messages: [statusMessage]}` — both observed shapes land in
the single `{eligible, messages}` contract. -/
theorem verify_eligibility_normalization (overallStatus : Bool) (msg : String)
    (hmsg : msg ≠ "") :
    normalizeEligibility false "" = { eligible := true, messages := [] }
    ∧ normalizeEligibility overallStatus msg = { eligible := false, messages := [msg] } := by
  refine ⟨rfl, ?_⟩
  simp [normalizeEligibility, hmsg]

/-- Witness for `verify_eligibility_normalization` at the concrete failing
message observed in the unit tests. -/
theorem verify_eligibility_normalization_witness :
    normalizeEligibility false "" = { eligible := true, messages := [] }
    ∧ normalizeEligibility false "Some error occurred"
        = { eligible := false, messages := ["Some error occurred"] } :=
  verify_eligibility_normalization false "Some error occurred" (by decide)

/-- C6 (code evaluated at the failing inputs): `handle_response` inspects no
HTTP status code — a 401 response with a parsed JSON body is returned as that
body instead of raising `AuthenticationError`, and a 500 response is likewise
returned instead of raising `APIError`; the function has no raising path. -/
theorem handle_response_ignores_http_status :
    handle_response
        { statusCode := 401
          jsonBody := some (.obj [("error", .str "unauthorized")]) }
      = .obj [("error", .str "unauthorized")]
    ∧ handle_response { statusCode := 500, jsonBody := some (.str "server error") }
      = .str "server error" :=
  ⟨rfl, rfl⟩

/-- C7: a POST or DELETE issued through the base client with no CSRF token and
a path not ending in a token-exempt suffix raises `CSRFTokenError`, and the
transport is never invoked (`sent` is the only constructor that reaches
`self.session.request`). -/
theorem csrf_guard (method path : String) (csrf : Option String)
    (hm : pyUpper method = "POST" ∨ pyUpper method = "DELETE")
    (hc : csrf = none)
    (hp : endsWithAny path exempt_suffixes = false) :
    baseRequest true csrf method path = .csrfTokenError
    ∧ ∀ m p, baseRequest true csrf method path ≠ .sent m p := by
  subst hc
  have hres : baseRequest true none method path = .csrfTokenError := by
    simp [baseRequest, hm, hp, csrfFalsy]
  exact ⟨hres, by simp [hres]⟩

/-- Witness for `csrf_guard`: POSTing the upgrade-session creation path with
no token. -/
theorem csrf_guard_witness :
    baseRequest true none "POST" "/api/types/upgradeSession/instances"
      = .csrfTokenError
    ∧ ∀ m p, baseRequest true none "POST" "/api/types/upgradeSession/instances"
        ≠ .sent m p :=
  csrf_guard "POST" "/api/types/upgradeSession/instances" none
    (Or.inl (by decide)) rfl (by decide)

/-- C8: for a real response (one with a callable `json` method and no test
`_json` attribute), a body that parses as JSON is returned unchanged, and a
body that fails to parse yields the synthesized
`{"status": "success", "status_code": <code>}` envelope instead of an
exception. -/
theorem handle_response_parse_or_envelope (r : HttpResponse)
    (hreal : r.hasJsonMethod = true) (htest : r.testJson = none) :
    (∀ j, r.jsonBody = some j → handle_response r = j)
    ∧ (r.jsonBody = none →
        handle_response r
          = .obj [("status", .str "success"), ("status_code", .nat r.statusCode)]) := by
  constructor
  · intro j hj
    simp [handle_response, hreal, htest, hj]
  · intro hb
    simp [handle_response, hreal, htest, hb]

/-- Witness for `handle_response_parse_or_envelope`: an empty 204 body
synthesizes the envelope, and a parsed body passes through. -/
theorem handle_response_parse_or_envelope_witness :
    handle_response { statusCode := 204 }
      = .obj [("status", .str "success"), ("status_code", .nat 204)]
    ∧ handle_response { statusCode := 200, jsonBody := some (.str "ok") } = .str "ok" :=
  ⟨(handle_response_parse_or_envelope { statusCode := 204 } rfl rfl).2 rfl,
   (handle_response_parse_or_envelope
      { statusCode := 200, jsonBody := some (.str "ok") } rfl rfl).1 _ rfl⟩

/-- C9 counterexample: a successful `login()` (status 200, token header
present) does write to disk — its effect list contains the session-file write
performed by `_create_session_file`, refuting "it writes nothing to disk and
no session file is created". -/
theorem login_writes_session_file :
    (login freshClient 200 (some "abc123")).2.2 = some true
    ∧ LoginEffect.writeSessionFile sessionFileFields ∈
        (login freshClient 200 (some "abc123")).2.1 := by
  decide

/-- C9 amended: every successful login (any non-401 probe response) creates
the session directory and writes a timestamped session file recording the
idle timeout, CSRF token, username, password, timestamps and session cookie,
in addition to setting the client's session, token, logged-in and
session-file fields. -/
theorem login_success_effects (st : ClientState) (status : Nat)
    (hdr : Option String) (h : status ≠ 401) :
    (login st status hdr).2.2 = some true
    ∧ LoginEffect.writeSessionFile sessionFileFields ∈ (login st status hdr).2.1
    ∧ LoginEffect.mkSessionDir ∈ (login st status hdr).2.1
    ∧ (login st status hdr).1.loggedIn = true
    ∧ (login st status hdr).1.hasSession = true
    ∧ (login st status hdr).1.hasSessionFile = true := by
  simp [login, h]

/-- Witness for `login_success_effects` at a concrete 200 login. -/
theorem login_success_effects_witness :
    (login freshClient 200 (some "tok")).2.2 = some true
    ∧ LoginEffect.writeSessionFile sessionFileFields ∈
        (login freshClient 200 (some "tok")).2.1
    ∧ LoginEffect.mkSessionDir ∈
        (login freshClient 200 (some "tok")).2.1
    ∧ (login freshClient 200 (some "tok")).1.loggedIn = true
    ∧ (login freshClient 200 (some "tok")).1.hasSession = true
    ∧ (login freshClient 200 (some "tok")).1.hasSessionFile = true :=
  login_success_effects _ 200 (some "tok") (by decide)

/-- C10: every invocation of the CLI helper `get_client` raises `TypeError`,
because the call always passes the keyword argument `verbose`, which is not
among the parameters of the exported `UnisphereClient.__init__`. -/
theorem get_client_always_type_error (b u p : Option String) (v : Option Bool)
    (vb : Bool) :
    get_client b u p v vb = .typeError
    ∧ "verbose" ∈ get_client_call_kwargs
    ∧ "verbose" ∉ exported_init_params := by
  have hcond : kwCallRaisesTypeError exported_init_params get_client_call_kwargs
      = true := by decide
  exact ⟨by simp [get_client, hcond], by decide, by decide⟩

end DellUnisphere
